import Mathlib

/-
  Verification development for the flappy_server gateway
  (authentication, rate limiting and pipeline layering).

  The definitions below are a shallow embedding of the Rust sources:
    - src/security.rs : Claims, JwtConfig, jwt_middleware, generate_jwt,
      validate_user, set_up_security_headers, JwtKeyExtractor
    - src/error.rs    : JwtError and its IntoResponse statuses
    - src/main.rs     : governor configuration, router composition,
      the background clean-up task and set_up_jwt
    - the jsonwebtoken crate decode/Validation semantics and the
      governor crate GCRA semantics, which the code instantiates.

  Timestamps are seconds since the Unix epoch, modelled as Nat
  (chrono timestamp / jsonwebtoken u64 seconds).  Signed tokens are
  modelled with an idealised MAC: the encoder output is determined by
  (claims, secret) and nothing else verifies; this is the standard
  unforgeability idealisation of HMAC-SHA256.
-/

namespace FlappyServer

/-- Claim set carried in the token payload (src/security.rs, struct Claims):
subject, expiry in epoch seconds, role. -/
structure Claims where
  sub : String
  exp : Nat
  role : String
deriving DecidableEq, Repr

/-- A token wire string.  `enc c secret` is the string produced by
jsonwebtoken encode of claims `c` under HS256 with `secret`; `raw s` is any
string that is not such an encoder output (malformed or forged). -/
inductive TokenStr where
  | raw (s : String)
  | enc (c : Claims) (secret : String)
deriving DecidableEq, Repr

/-- Failure kinds of jsonwebtoken decode that this program can hit:
a structurally malformed token, a MAC that does not verify, or an
expired `exp` claim. -/
inductive DecodeFailure where
  | invalidToken
  | invalidSignature
  | expiredSignature
deriving DecidableEq, Repr

/-- src/error.rs, enum JwtError (the unused `_EncodingError` variant is
omitted: `encode` is total in the model). -/
inductive JwtError where
  | MissingAuthHeader
  | InvalidTokenFormat
  | DecodeError (e : DecodeFailure)
deriving DecidableEq, Repr

/-- The jsonwebtoken `Validation` fields this program reads. -/
structure Validation where
  leeway : Nat
  validate_exp : Bool
  validate_nbf : Bool
deriving DecidableEq, Repr

/-- jsonwebtoken `Validation::default()`: leeway 60 seconds, exp checked,
nbf not checked. -/
def Validation.default : Validation :=
  { leeway := 60, validate_exp := true, validate_nbf := true }

/-- src/security.rs, struct JwtConfig. -/
structure JwtConfig where
  secret : String
  validation : Validation
deriving DecidableEq, Repr

/-- src/security.rs, JwtConfig::new: default validation with leeway 60,
validate_exp and validate_nbf set. -/
def JwtConfig.new (secret : String) : JwtConfig :=
  { secret := secret,
    validation :=
      { Validation.default with
          leeway := 60, validate_exp := true, validate_nbf := true } }

/-- jsonwebtoken decode for Claims: the signature is verified first, then
the claims are validated.  A token is expired when `exp < now - leeway`
(u64 seconds in the crate; Nat subtraction here agrees with it for every
clock reading with `now >= leeway`, i.e. any instant after
1970-01-01T00:01:00Z).  The claim set has no nbf field, so validate_nbf
performs no check. -/
def decodeToken (tok : TokenStr) (secret : String) (v : Validation) (now : Nat) :
    Except JwtError Claims :=
  match tok with
  | .raw _ => .error (.DecodeError .invalidToken)
  | .enc c sec =>
    if sec = secret then
      if v.validate_exp && decide (c.exp < now - v.leeway) then
        .error (.DecodeError .expiredSignature)
      else
        .ok c
    else
      .error (.DecodeError .invalidSignature)

/-- src/security.rs, generate_jwt: expiry is now plus one hour, claims are
the given subject and role, the result is signed with `secret`. -/
def generate_jwt (user_id : String) (secret : String) (role : String) (now : Nat) :
    TokenStr :=
  TokenStr.enc { sub := user_id, exp := now + 3600, role := role } secret

/-- The Authorization header value as the middleware observes it.  The
constructors partition the outcomes of `HeaderValue::to_str` followed by
`str::strip_prefix("Bearer ")` on the raw bytes: not valid UTF-8, valid
UTF-8 without the Bearer scheme, or "Bearer " followed by a token string
(on which the subsequent `trim` is the identity). -/
inductive AuthVal where
  | nonUtf8
  | noBearerScheme (s : String)
  | bearer (t : TokenStr)
deriving DecidableEq, Repr

/-- src/security.rs, jwt_middleware: reads the Authorization header,
requires the Bearer scheme, then decodes the token against the secret and
validation of the shared JwtConfig. -/
def jwt_middleware (auth : Option AuthVal) (cfg : JwtConfig) (now : Nat) :
    Except JwtError Claims :=
  match auth with
  | none => .error .MissingAuthHeader
  | some .nonUtf8 => .error .InvalidTokenFormat
  | some (.noBearerScheme _) => .error .InvalidTokenFormat
  | some (.bearer t) => decodeToken t cfg.secret cfg.validation now

/-- Response headers as an association list with HeaderMap insert
semantics (insert replaces any previous value for the name). -/
abbrev Headers := List (String × String)

/-- HeaderMap::insert: the new pair wins, previous entries for the same
name are dropped. -/
def hdrInsert (h : Headers) (k v : String) : Headers :=
  (k, v) :: h.filter (fun p => !(decide (p.1 = k)))

/-- HeaderMap::get. -/
def hdrGet : Headers → String → Option String
  | [], _ => none
  | (k, v) :: rest, key => if k = key then some v else hdrGet rest key

/-- An HTTP response: status code plus headers (bodies are out of scope
for the claims under verification). -/
structure Resp where
  status : Nat
  headers : Headers
deriving DecidableEq, Repr

/-- src/error.rs, impl IntoResponse for JwtError: missing header is 401,
bad token format is 400, decode failure is 401. -/
def JwtError.into_response : JwtError → Resp
  | .MissingAuthHeader => { status := 401, headers := [] }
  | .InvalidTokenFormat => { status := 400, headers := [] }
  | .DecodeError _ => { status := 401, headers := [] }

/-- src/security.rs, set_up_security_headers: runs the inner service and
then inserts the six fixed headers on whatever response came back,
in source order. -/
def set_up_security_headers (r : Resp) : Resp :=
  { r with
      headers :=
        hdrInsert
          (hdrInsert
            (hdrInsert
              (hdrInsert
                (hdrInsert
                  (hdrInsert r.headers
                    "Content-Security-Policy" "default-src \x27self\x27")
                  "Strict-Transport-Security" "max-age=31536000; includeSubDomains")
                "X-Content-Type-Options" "nosniff")
              "X-Frame-Options" "DENY")
            "Referrer-Policy" "no-referrer-when-downgrade")
          "Permissions-Policy" "geolocation=(), camera=()" }

/-- governor crate GCRA parameters: `t` is the emission interval (the
replenish period for one cell), `tau` the burst tolerance. -/
structure Gcra where
  t : Nat
  tau : Nat
deriving DecidableEq, Repr

/-- GovernorConfigBuilder: per_second(p) sets the replenish interval to
`p` seconds and burst_size(b) the burst; governor derives t = period and
tau = period * burst. -/
def Gcra.fromBuilder (perSecond burst : Nat) : Gcra :=
  { t := perSecond, tau := perSecond * burst }

/-- src/main.rs lines 46-52: the public governor,
per_second(60) with burst_size(3). -/
def public_governor : Gcra := Gcra.fromBuilder 60 3

/-- src/main.rs lines 54-61: the private governor, JwtKeyExtractor keyed,
per_second(60) with burst_size(5). -/
def private_governor : Gcra := Gcra.fromBuilder 60 5

/-- governor Gcra::starting_state for a key with no recorded state. -/
def Gcra.starting_state (g : Gcra) (t0 : Nat) : Nat :=
  t0 + g.t

/-- governor Gcra::test_and_update: with recorded theoretical arrival
time `tat` (or the starting state), deny when `t0` is earlier than
`tat - tau` (saturating subtraction, exactly Nat subtraction), otherwise
allow and record `max tat t0 + t`. -/
def Gcra.test_and_update (g : Gcra) (tat : Option Nat) (t0 : Nat) : Option Nat :=
  let tatv := tat.getD (g.starting_state t0)
  let earliest := tatv - g.tau
  if t0 < earliest then none else some (max tatv t0 + g.t)

/-- Lookup in the keyed state store of a governor. -/
def tatLookup {κ : Type} [DecidableEq κ] : List (κ × Nat) → κ → Option Nat
  | [], _ => none
  | (k, v) :: rest, key => if k = key then some v else tatLookup rest key

/-- Replace-or-insert in the keyed state store. -/
def tatInsert {κ : Type} [DecidableEq κ] (store : List (κ × Nat)) (key : κ)
    (tat : Nat) : List (κ × Nat) :=
  (key, tat) :: store.filter (fun p => !(decide (p.1 = key)))

/-- One keyed rate-limit check: measure_and_replace leaves the store
untouched on denial and records the new tat on an allowed cell. -/
def Gcra.check {κ : Type} [DecidableEq κ] (g : Gcra) (store : List (κ × Nat))
    (key : κ) (now : Nat) : Bool × List (κ × Nat) :=
  match g.test_and_update (tatLookup store key) now with
  | none => (false, store)
  | some tat => (true, tatInsert store key tat)

/-- governor RateLimiter::retain_recent: drop entries whose recorded tat
is older than the current instant. -/
def retain_recent {κ : Type} [DecidableEq κ] (now : Nat)
    (store : List (κ × Nat)) : List (κ × Nat) :=
  store.filter (fun p => decide (now ≤ p.2))

/-- src/security.rs, JwtKeyExtractor::extract: the raw (unverified)
token string after the Bearer scheme is the throttling key; in every
other case extraction fails with UnableToExtractKey. -/
def jwtKeyExtract (auth : Option AuthVal) : Except Unit TokenStr :=
  match auth with
  | some (.bearer t) => .ok t
  | _ => .error ()

/-- tower_governor error response for TooManyRequests. -/
def too_many_requests_resp : Resp := { status := 429, headers := [] }

/-- tower_governor error response for UnableToExtractKey. -/
def unable_to_extract_key_resp : Resp := { status := 500, headers := [] }

/-- Whether the request shape makes jwt_middleware reach the
jsonwebtoken decode call (credential verification work). -/
def decodeAttempted (auth : Option AuthVal) : Bool :=
  match auth with
  | some (.bearer _) => true
  | _ => false

/-- src/main.rs lines 94-106, the private router stack in execution
order: the governor layer (added last, hence outermost) extracts the key
and checks the bucket; only then does jwt_middleware run; only then the
routed handler.  Returns the response, the private store afterwards, and
whether decode was invoked. -/
def private_router (cfg : JwtConfig) (store : List (TokenStr × Nat))
    (auth : Option AuthVal) (now : Nat) (handler : Resp) :
    Resp × List (TokenStr × Nat) × Bool :=
  match jwtKeyExtract auth with
  | .error _ => (unable_to_extract_key_resp, store, false)
  | .ok key =>
    match private_governor.check store key now with
    | (false, store1) => (too_many_requests_resp, store1, false)
    | (true, store1) =>
      match jwt_middleware auth cfg now with
      | .error e => (e.into_response, store1, decodeAttempted auth)
      | .ok _ => (handler, store1, decodeAttempted auth)

/-- src/main.rs lines 89-92, the public router stack: the peer-keyed
governor in front of the routed handler. -/
def public_router (store : List (String × Nat)) (peer : String) (now : Nat)
    (handler : Resp) : Resp × List (String × Nat) :=
  match public_governor.check store peer now with
  | (false, store1) => (too_many_requests_resp, store1)
  | (true, store1) => (handler, store1)

/-- The route table of src/main.rs: two public routes, three protected
routes, everything else falls through to the 404 fallback. -/
inductive Route where
  | health
  | login
  | getScores
  | setScore
  | flush
  | other
deriving DecidableEq, Repr

/-- A request as the modelled layers observe it: route, peer address
(public rate-limit key), Authorization header, body length in bytes, and
the wall-clock seconds the inner processing would take (read by the
timeout layer). -/
structure Req where
  route : Route
  peer : String
  auth : Option AuthVal
  bodyLen : Nat
  procTime : Nat
deriving DecidableEq, Repr

/-- The shared process context: the jwt config slot of AppState plus the
two governor state stores. -/
structure AppCtx where
  cfg : JwtConfig
  pubStore : List (String × Nat)
  privStore : List (TokenStr × Nat)
deriving DecidableEq, Repr

/-- A routed handler success (business handlers are out of scope beyond
producing some response). -/
def okResp : Resp := { status := 200, headers := [] }

/-- The 404 fallback response (handler_404 is referenced from main.rs;
its body is routing boilerplate out of scope for the claims). -/
def notFoundResp : Resp := { status := 404, headers := [] }

/-- tower_http RequestBodyLimitLayer rejection. -/
def payload_too_large_resp : Resp := { status := 413, headers := [] }

/-- tower_http TimeoutLayer rejection. -/
def request_timeout_resp : Resp := { status := 408, headers := [] }

/-- Dispatch through the merged routers of src/main.rs lines 108-111:
public routes hit the public governor, protected routes the private
stack, unknown routes the fallback. -/
def routerDispatch (ctx : AppCtx) (req : Req) (now : Nat) :
    Resp × AppCtx × Bool :=
  match req.route with
  | .health | .login =>
    let rs := public_router ctx.pubStore req.peer now okResp
    (rs.1, { ctx with pubStore := rs.2 }, false)
  | .getScores | .setScore | .flush =>
    let rsb := private_router ctx.cfg ctx.privStore req.auth now okResp
    (rsb.1, { ctx with privStore := rsb.2.1 }, rsb.2.2)
  | .other => (notFoundResp, ctx, false)

/-- src/main.rs lines 108-121, the app stack in execution order (layers
added later sit outside): trace and CORS pass plain requests through,
RequestBodyLimitLayer(1024) rejects oversized bodies with 413,
TimeoutLayer(10 s) rejects slow requests with 408 (the inner work is
abandoned), set_up_security_headers wraps everything below it, then the
routers run.  Responses produced by the body-limit and timeout layers
never pass through the header middleware. -/
def appPipeline (ctx : AppCtx) (req : Req) (now : Nat) :
    Resp × AppCtx × Bool :=
  if 1024 < req.bodyLen then
    (payload_too_large_resp, ctx, false)
  else if 10 < req.procTime then
    (request_timeout_resp, ctx, false)
  else
    let rcb := routerDispatch ctx req now
    (set_up_security_headers rcb.1, rcb.2.1, rcb.2.2)

/-- src/main.rs lines 68-77: the single spawned background task; on each
24-hour tick it calls retain_recent on both limiters.  It does not touch
the jwt config slot. -/
def cleanup_tick (now : Nat) (ctx : AppCtx) : AppCtx :=
  { ctx with
      pubStore := retain_recent now ctx.pubStore,
      privStore := retain_recent now ctx.privStore }

/-- src/main.rs lines 168-172, set_up_jwt: the secret is the value of the
JWT_SECRET environment variable (passed here as a parameter), wrapped in
JwtConfig::new; absence of the variable aborts startup and is out of
scope. -/
def set_up_jwt (jwtSecretEnv : String) : JwtConfig :=
  JwtConfig.new jwtSecretEnv

/-- src/security.rs, struct User. -/
structure User where
  id : String
deriving DecidableEq, Repr

/-- src/security.rs, validate_user: ignores both arguments and returns
the fixed identity. -/
def validate_user (_username _password : String) : Except String User :=
  Except.ok { id := "default" }

/-- src/handlers.rs, login: validates the credentials (an Err would map
to a 401 ServerError response) and issues a token for the validated
identity under the shared secret.  The role argument abstracts the role
value the handler supplies to generate_jwt; the subject is always the
validated user id. -/
def login (cfg : JwtConfig) (username password role : String) (now : Nat) :
    Except Resp TokenStr :=
  match validate_user username password with
  | .error _ => .error { status := 401, headers := [] }
  | .ok user => .ok (generate_jwt user.id cfg.secret role now)

/-
  Theorems.
-/

/-- Inserting a header makes it retrievable with exactly the inserted
value. -/
theorem hdrGet_insert_self (h : Headers) (k v : String) :
    hdrGet (hdrInsert h k v) k = some v := by
  simp [hdrInsert, hdrGet]

/-- Dropping the entries for a different name does not change a lookup. -/
theorem hdrGet_filter_ne (h : Headers) (k k2 : String) (hne : k2 ≠ k) :
    hdrGet (h.filter (fun p => !(decide (p.1 = k)))) k2 = hdrGet h k2 := by
  induction h with
  | nil => rfl
  | cons a rest ih =>
    obtain ⟨x, y⟩ := a
    by_cases hxk : x = k
    · simp [List.filter_cons, hxk, hdrGet, Ne.symm hne, ih]
    · simp [List.filter_cons, hxk, hdrGet, ih]

/-- Inserting a header with a different name does not change a lookup. -/
theorem hdrGet_insert_ne (h : Headers) (k v k2 : String) (hne : k2 ≠ k) :
    hdrGet (hdrInsert h k v) k2 = hdrGet h k2 := by
  simp only [hdrInsert, hdrGet]
  rw [if_neg (Ne.symm hne)]
  exact hdrGet_filter_ne h k k2 hne

/-- After set_up_security_headers, each of the six fixed headers reads
back with exactly its literal value, whatever the inner response was. -/
theorem set_up_security_headers_values (r : Resp) :
    hdrGet (set_up_security_headers r).headers "Content-Security-Policy"
        = some "default-src \x27self\x27"
    ∧ hdrGet (set_up_security_headers r).headers "Strict-Transport-Security"
        = some "max-age=31536000; includeSubDomains"
    ∧ hdrGet (set_up_security_headers r).headers "X-Content-Type-Options"
        = some "nosniff"
    ∧ hdrGet (set_up_security_headers r).headers "X-Frame-Options"
        = some "DENY"
    ∧ hdrGet (set_up_security_headers r).headers "Referrer-Policy"
        = some "no-referrer-when-downgrade"
    ∧ hdrGet (set_up_security_headers r).headers "Permissions-Policy"
        = some "geolocation=(), camera=()" := by
  unfold set_up_security_headers
  refine ⟨?_, ?_, ?_, ?_, ?_, ?_⟩
  · rw [hdrGet_insert_ne _ _ _ _ (by decide), hdrGet_insert_ne _ _ _ _ (by decide),
      hdrGet_insert_ne _ _ _ _ (by decide), hdrGet_insert_ne _ _ _ _ (by decide),
      hdrGet_insert_ne _ _ _ _ (by decide), hdrGet_insert_self]
  · rw [hdrGet_insert_ne _ _ _ _ (by decide), hdrGet_insert_ne _ _ _ _ (by decide),
      hdrGet_insert_ne _ _ _ _ (by decide), hdrGet_insert_ne _ _ _ _ (by decide),
      hdrGet_insert_self]
  · rw [hdrGet_insert_ne _ _ _ _ (by decide), hdrGet_insert_ne _ _ _ _ (by decide),
      hdrGet_insert_ne _ _ _ _ (by decide), hdrGet_insert_self]
  · rw [hdrGet_insert_ne _ _ _ _ (by decide), hdrGet_insert_ne _ _ _ _ (by decide),
      hdrGet_insert_self]
  · rw [hdrGet_insert_ne _ _ _ _ (by decide), hdrGet_insert_self]
  · rw [hdrGet_insert_self]

/-- Claim C1 counterexample: the program has no secret-rotation task.
The single spawned background task (src/main.rs lines 68-77) only calls
retain_recent on the two limiters: running it at the 24-hour mark leaves
the startup secret in the shared slot unchanged, and a token issued just
before the tick still verifies just after it — contradicting both the
claimed wholesale replacement and the claimed invalidation of previously
issued tokens. -/
theorem c1_counterexample :
    (cleanup_tick 86400
        { cfg := JwtConfig.new "startup-secret", pubStore := [], privStore := [] }).cfg.secret
      = "startup-secret"
    ∧ jwt_middleware
        (some (.bearer (generate_jwt "alice" "startup-secret" "player" 86400)))
        (cleanup_tick 86400
          { cfg := JwtConfig.new "startup-secret", pubStore := [], privStore := [] }).cfg
        86405
      = .ok { sub := "alice", exp := 90000, role := "player" } :=
  ⟨rfl, rfl⟩

/-- Claim C1 amended: the signing secret in force is created at process
start from the JWT_SECRET environment value and held in the shared slot;
the dedicated 24-hour background task only evicts idle rate-limiter
entries and leaves the jwt config untouched, so no rotation happens and
token verification behaves identically before and after any tick. -/
theorem c1_no_rotation (envSecret : String) (ctx : AppCtx) (tickTime : Nat)
    (auth : Option AuthVal) (t : Nat) :
    (set_up_jwt envSecret).secret = envSecret
    ∧ (cleanup_tick tickTime ctx).cfg = ctx.cfg
    ∧ jwt_middleware auth (cleanup_tick tickTime ctx).cfg t
        = jwt_middleware auth ctx.cfg t :=
  ⟨rfl, rfl, rfl⟩

/-- Claim C2: a token issued at `now` carries expiry `now + 3600`;
under the same secret with the configured 60-second leeway it verifies,
returning the original subject and role, at every instant from issuance
up to `now + 3600 + 60`, and at `now + 3600 + 60 + 1` it fails with the
expiry error.  The clock hypotheses keep the u64 arithmetic of the
crate in range (any instant after 1970-01-01T00:01:00Z). -/
theorem c2_issue_verify_window (sub role secret : String) (now t : Nat)
    (hclock : 60 ≤ now) (hlo : now ≤ t) (hhi : t ≤ now + 3660) :
    decodeToken (generate_jwt sub secret role now) secret
        (JwtConfig.new secret).validation t
      = .ok { sub := sub, exp := now + 3600, role := role }
    ∧ decodeToken (generate_jwt sub secret role now) secret
        (JwtConfig.new secret).validation (now + 3661)
      = .error (.DecodeError .expiredSignature) := by
  have hval : (JwtConfig.new secret).validation = ⟨60, true, true⟩ := rfl
  constructor
  · simp only [generate_jwt, decodeToken, hval, Bool.true_and]
    rw [if_pos trivial, if_neg]
    simp only [decide_eq_true_eq]
    omega
  · simp only [generate_jwt, decodeToken, hval, Bool.true_and]
    rw [if_pos trivial, if_pos]
    simp only [decide_eq_true_eq]
    omega

/-- Claim C2 witness at a concrete instant. -/
theorem c2_issue_verify_window_witness :
    (60 ≤ 1000 ∧ 1000 ≤ 4660 ∧ 4660 ≤ 1000 + 3660)
    ∧ (decodeToken (generate_jwt "alice" "topsecret" "admin" 1000) "topsecret"
          (JwtConfig.new "topsecret").validation 4660
        = .ok { sub := "alice", exp := 4600, role := "admin" }
      ∧ decodeToken (generate_jwt "alice" "topsecret" "admin" 1000) "topsecret"
          (JwtConfig.new "topsecret").validation (1000 + 3661)
        = .error (.DecodeError .expiredSignature)) :=
  ⟨⟨by decide, by decide, by decide⟩,
    c2_issue_verify_window "alice" "admin" "topsecret" 1000 4660
      (by decide) (by decide) (by decide)⟩

/-- Claim C10: validate_user accepts every username and password pair,
returning the fixed identity "default", so login always succeeds and
every issued token carries subject "default". -/
theorem c10_validate_user_default (username password role : String)
    (cfg : JwtConfig) (now : Nat) :
    validate_user username password = .ok { id := "default" }
    ∧ login cfg username password role now
        = .ok (TokenStr.enc
            { sub := "default", exp := now + 3600, role := role } cfg.secret) :=
  ⟨rfl, rfl⟩

/-- Claim C3 counterexample: with the public configuration
(per_second(60), burst_size(3)) three requests for key "k" at time 0 all
allow and the bucket is exhausted; the claim says one token refills
within 1 second, but the request at time 1 is still rejected —
per_second(60) is a replenish interval of 60 seconds, not a rate of 60
tokens per minute. -/
theorem c3_counterexample :
    (public_governor.check ([] : List (String × Nat)) "k" 0).1 = true
    ∧ (public_governor.check
        (public_governor.check ([] : List (String × Nat)) "k" 0).2 "k" 0).1 = true
    ∧ (public_governor.check
        (public_governor.check
          (public_governor.check ([] : List (String × Nat)) "k" 0).2 "k" 0).2
        "k" 0).1 = true
    ∧ (public_governor.check
        (public_governor.check
          (public_governor.check
            (public_governor.check ([] : List (String × Nat)) "k" 0).2 "k" 0).2
          "k" 0).2
        "k" 1).1 = false := by
  decide

/-- Claim C3 amended: the public limiter has burst capacity 3 and the
authenticated limiter burst capacity 5, each replenishing one token per
60 seconds (per_second(60) sets the replenish interval); for any fresh
key, three public requests at time 0 all Allow, a fourth request Rejects
at every instant strictly before 60 seconds, and the next request Allows
once 60 seconds have passed; the authenticated limiter allows five
requests at time 0 and rejects the sixth. -/
theorem c3_refill_interval (k : String) (kp : TokenStr) (d : Nat) (hd : d < 60) :
    public_governor = Gcra.fromBuilder 60 3
    ∧ private_governor = Gcra.fromBuilder 60 5
    ∧ (let r1 := public_governor.check ([] : List (String × Nat)) k 0
       let r2 := public_governor.check r1.2 k 0
       let r3 := public_governor.check r2.2 k 0
       r1.1 = true ∧ r2.1 = true ∧ r3.1 = true
       ∧ (public_governor.check r3.2 k d).1 = false
       ∧ (public_governor.check r3.2 k 60).1 = true)
    ∧ (let q1 := private_governor.check ([] : List (TokenStr × Nat)) kp 0
       let q2 := private_governor.check q1.2 kp 0
       let q3 := private_governor.check q2.2 kp 0
       let q4 := private_governor.check q3.2 kp 0
       let q5 := private_governor.check q4.2 kp 0
       q1.1 = true ∧ q2.1 = true ∧ q3.1 = true ∧ q4.1 = true ∧ q5.1 = true
       ∧ (private_governor.check q5.2 kp 0).1 = false) := by
  refine ⟨rfl, rfl, ?_, ?_⟩
  · have e1 : public_governor.check ([] : List (String × Nat)) k 0
        = (true, [(k, 120)]) := by
      simp [Gcra.check, Gcra.test_and_update, Gcra.starting_state, tatLookup,
        tatInsert, public_governor, Gcra.fromBuilder, Nat.max_def]
    have e2 : public_governor.check [(k, 120)] k 0 = (true, [(k, 180)]) := by
      simp [Gcra.check, Gcra.test_and_update, Gcra.starting_state, tatLookup,
        tatInsert, public_governor, Gcra.fromBuilder, Nat.max_def]
    have e3 : public_governor.check [(k, 180)] k 0 = (true, [(k, 240)]) := by
      simp [Gcra.check, Gcra.test_and_update, Gcra.starting_state, tatLookup,
        tatInsert, public_governor, Gcra.fromBuilder, Nat.max_def]
    have e4 : (public_governor.check [(k, 240)] k d).1 = false := by
      simp [Gcra.check, Gcra.test_and_update, Gcra.starting_state, tatLookup,
        public_governor, Gcra.fromBuilder, hd]
    have e5 : (public_governor.check [(k, 240)] k 60).1 = true := by
      simp [Gcra.check, Gcra.test_and_update, Gcra.starting_state, tatLookup,
        tatInsert, public_governor, Gcra.fromBuilder, Nat.max_def]
    simp [e1, e2, e3, e4, e5]
  · have f1 : private_governor.check ([] : List (TokenStr × Nat)) kp 0
        = (true, [(kp, 120)]) := by
      simp [Gcra.check, Gcra.test_and_update, Gcra.starting_state, tatLookup,
        tatInsert, private_governor, Gcra.fromBuilder, Nat.max_def]
    have f2 : private_governor.check [(kp, 120)] kp 0 = (true, [(kp, 180)]) := by
      simp [Gcra.check, Gcra.test_and_update, Gcra.starting_state, tatLookup,
        tatInsert, private_governor, Gcra.fromBuilder, Nat.max_def]
    have f3 : private_governor.check [(kp, 180)] kp 0 = (true, [(kp, 240)]) := by
      simp [Gcra.check, Gcra.test_and_update, Gcra.starting_state, tatLookup,
        tatInsert, private_governor, Gcra.fromBuilder, Nat.max_def]
    have f4 : private_governor.check [(kp, 240)] kp 0 = (true, [(kp, 300)]) := by
      simp [Gcra.check, Gcra.test_and_update, Gcra.starting_state, tatLookup,
        tatInsert, private_governor, Gcra.fromBuilder, Nat.max_def]
    have f5 : private_governor.check [(kp, 300)] kp 0 = (true, [(kp, 360)]) := by
      simp [Gcra.check, Gcra.test_and_update, Gcra.starting_state, tatLookup,
        tatInsert, private_governor, Gcra.fromBuilder, Nat.max_def]
    have f6 : (private_governor.check [(kp, 360)] kp 0).1 = false := by
      simp [Gcra.check, Gcra.test_and_update, Gcra.starting_state, tatLookup,
        private_governor, Gcra.fromBuilder]
    simp [f1, f2, f3, f4, f5, f6]

/-- Claim C3 amended, witness at key "k", token key raw "t", wait 1 s. -/
theorem c3_refill_interval_witness :
    1 < 60
    ∧ (public_governor = Gcra.fromBuilder 60 3
      ∧ private_governor = Gcra.fromBuilder 60 5
      ∧ (let r1 := public_governor.check ([] : List (String × Nat)) "k" 0
         let r2 := public_governor.check r1.2 "k" 0
         let r3 := public_governor.check r2.2 "k" 0
         r1.1 = true ∧ r2.1 = true ∧ r3.1 = true
         ∧ (public_governor.check r3.2 "k" 1).1 = false
         ∧ (public_governor.check r3.2 "k" 60).1 = true)
      ∧ (let q1 := private_governor.check ([] : List (TokenStr × Nat))
            (TokenStr.raw "t") 0
         let q2 := private_governor.check q1.2 (TokenStr.raw "t") 0
         let q3 := private_governor.check q2.2 (TokenStr.raw "t") 0
         let q4 := private_governor.check q3.2 (TokenStr.raw "t") 0
         let q5 := private_governor.check q4.2 (TokenStr.raw "t") 0
         q1.1 = true ∧ q2.1 = true ∧ q3.1 = true ∧ q4.1 = true ∧ q5.1 = true
         ∧ (private_governor.check q5.2 (TokenStr.raw "t") 0).1 = false)) :=
  ⟨by decide, c3_refill_interval "k" (TokenStr.raw "t") 1 (by decide)⟩

/-- Claim C4: on the private router the governor layer runs before
jwt_middleware; when the bucket for the presented (invalid) bearer token
is exhausted, the response is the 429 rate-limit rejection, the store is
left as is, and the jsonwebtoken decode is never invoked. -/
theorem c4_rate_limit_before_auth (cfg : JwtConfig) (store : List (TokenStr × Nat))
    (tok : TokenStr) (now : Nat) (handler : Resp) (e : JwtError)
    (hbucket : private_governor.test_and_update (tatLookup store tok) now = none)
    (_hbad : decodeToken tok cfg.secret cfg.validation now = .error e) :
    private_router cfg store (some (.bearer tok)) now handler
      = (too_many_requests_resp, store, false) := by
  simp [private_router, jwtKeyExtract, Gcra.check, hbucket]

/-- Claim C4 witness: an exhausted bucket for a malformed bearer token. -/
theorem c4_rate_limit_before_auth_witness :
    private_governor.test_and_update
        (tatLookup [(TokenStr.raw "bad", 400)] (TokenStr.raw "bad")) 0 = none
    ∧ decodeToken (TokenStr.raw "bad") (JwtConfig.new "s").secret
        (JwtConfig.new "s").validation 0
      = .error (.DecodeError .invalidToken)
    ∧ private_router (JwtConfig.new "s") [(TokenStr.raw "bad", 400)]
        (some (.bearer (.raw "bad"))) 0 okResp
      = (too_many_requests_resp, [(TokenStr.raw "bad", 400)], false) :=
  ⟨by decide, rfl,
    c4_rate_limit_before_auth (JwtConfig.new "s") [(TokenStr.raw "bad", 400)]
      (TokenStr.raw "bad") 0 okResp (.DecodeError .invalidToken)
      (by decide) rfl⟩

/-- Claim C5 counterexample: a request that trips the 10-second
TimeoutLayer is answered by a response generated outside
set_up_security_headers (the timeout layer is added after it in main.rs
and therefore sits outside it), so that response carries no
Content-Security-Policy header at all, contradicting the claim for the
timeout failure case. -/
theorem c5_counterexample :
    (appPipeline ⟨JwtConfig.new "s", [], []⟩
        ⟨Route.health, "1.2.3.4", none, 0, 11⟩ 0).1
      = request_timeout_resp
    ∧ hdrGet
        (appPipeline ⟨JwtConfig.new "s", [], []⟩
          ⟨Route.health, "1.2.3.4", none, 0, 11⟩ 0).1.headers
        "Content-Security-Policy"
      = none :=
  ⟨rfl, rfl⟩

/-- Claim C5 amended: every response produced at or inside the
security-header middleware — i.e. for every request within the
1024-byte body cap and the 10-second deadline, on any route, whether the
pipeline succeeds or fails there (handler success, 404 fallback,
rate-limit rejection, authentication failure) — carries the six security
headers with exactly the fixed literal values; responses generated by
the outer body-limit and timeout layers bypass the middleware and lack
them. -/
theorem c5_security_headers (ctx : AppCtx) (req : Req) (now : Nat)
    (hbody : req.bodyLen ≤ 1024) (htime : req.procTime ≤ 10) :
    hdrGet (appPipeline ctx req now).1.headers "Content-Security-Policy"
        = some "default-src \x27self\x27"
    ∧ hdrGet (appPipeline ctx req now).1.headers "Strict-Transport-Security"
        = some "max-age=31536000; includeSubDomains"
    ∧ hdrGet (appPipeline ctx req now).1.headers "X-Content-Type-Options"
        = some "nosniff"
    ∧ hdrGet (appPipeline ctx req now).1.headers "X-Frame-Options"
        = some "DENY"
    ∧ hdrGet (appPipeline ctx req now).1.headers "Referrer-Policy"
        = some "no-referrer-when-downgrade"
    ∧ hdrGet (appPipeline ctx req now).1.headers "Permissions-Policy"
        = some "geolocation=(), camera=()" := by
  have hpipe : (appPipeline ctx req now).1
      = set_up_security_headers (routerDispatch ctx req now).1 := by
    unfold appPipeline
    rw [if_neg (by omega), if_neg (by omega)]
  rw [hpipe]
  exact set_up_security_headers_values (routerDispatch ctx req now).1

/-- Claim C5 amended, witness: an in-bounds request to an unknown route
(the 404 fallback) carries all six headers. -/
theorem c5_security_headers_witness :
    ((⟨Route.other, "p", none, 0, 0⟩ : Req).bodyLen ≤ 1024
      ∧ (⟨Route.other, "p", none, 0, 0⟩ : Req).procTime ≤ 10)
    ∧ (hdrGet (appPipeline ⟨JwtConfig.new "s", [], []⟩
          ⟨Route.other, "p", none, 0, 0⟩ 0).1.headers "Content-Security-Policy"
        = some "default-src \x27self\x27"
      ∧ hdrGet (appPipeline ⟨JwtConfig.new "s", [], []⟩
          ⟨Route.other, "p", none, 0, 0⟩ 0).1.headers "Strict-Transport-Security"
        = some "max-age=31536000; includeSubDomains"
      ∧ hdrGet (appPipeline ⟨JwtConfig.new "s", [], []⟩
          ⟨Route.other, "p", none, 0, 0⟩ 0).1.headers "X-Content-Type-Options"
        = some "nosniff"
      ∧ hdrGet (appPipeline ⟨JwtConfig.new "s", [], []⟩
          ⟨Route.other, "p", none, 0, 0⟩ 0).1.headers "X-Frame-Options"
        = some "DENY"
      ∧ hdrGet (appPipeline ⟨JwtConfig.new "s", [], []⟩
          ⟨Route.other, "p", none, 0, 0⟩ 0).1.headers "Referrer-Policy"
        = some "no-referrer-when-downgrade"
      ∧ hdrGet (appPipeline ⟨JwtConfig.new "s", [], []⟩
          ⟨Route.other, "p", none, 0, 0⟩ 0).1.headers "Permissions-Policy"
        = some "geolocation=(), camera=()") :=
  ⟨⟨by decide, by decide⟩,
    c5_security_headers ⟨JwtConfig.new "s", [], []⟩
      ⟨Route.other, "p", none, 0, 0⟩ 0 (by decide) (by decide)⟩

/-- Claim C6: the authentication failure taxonomy on protected routes
and its statuses: a missing Authorization header is rejected 401; a
header value that is not UTF-8 or lacks the "Bearer " scheme is rejected
400; a bearer token whose signature does not verify under the current
secret, or whose expiry lies more than leeway in the past, is rejected
401. -/
theorem c6_auth_error_taxonomy (s v : String) (now : Nat) (c c2 : Claims)
    (sec : String) (hsig : sec ≠ s) (hexp : c2.exp < now - 60) :
    (jwt_middleware none (JwtConfig.new s) now = .error .MissingAuthHeader
      ∧ JwtError.MissingAuthHeader.into_response.status = 401)
    ∧ (jwt_middleware (some .nonUtf8) (JwtConfig.new s) now
          = .error .InvalidTokenFormat
      ∧ jwt_middleware (some (.noBearerScheme v)) (JwtConfig.new s) now
          = .error .InvalidTokenFormat
      ∧ JwtError.InvalidTokenFormat.into_response.status = 400)
    ∧ (jwt_middleware (some (.bearer (.enc c sec))) (JwtConfig.new s) now
          = .error (.DecodeError .invalidSignature)
      ∧ (JwtError.DecodeError .invalidSignature).into_response.status = 401)
    ∧ (jwt_middleware (some (.bearer (.enc c2 s))) (JwtConfig.new s) now
          = .error (.DecodeError .expiredSignature)
      ∧ (JwtError.DecodeError .expiredSignature).into_response.status = 401) := by
  refine ⟨⟨rfl, rfl⟩, ⟨rfl, rfl, rfl⟩, ⟨?_, rfl⟩, ⟨?_, rfl⟩⟩
  · simp [jwt_middleware, decodeToken, JwtConfig.new, hsig]
  · simp [jwt_middleware, decodeToken, JwtConfig.new, Validation.default, hexp]

/-- Claim C6 witness at concrete header shapes and tokens. -/
theorem c6_auth_error_taxonomy_witness :
    ("wrong" ≠ "right" ∧ 10 < 1000 - 60)
    ∧ ((jwt_middleware none (JwtConfig.new "right") 1000
          = .error .MissingAuthHeader
        ∧ JwtError.MissingAuthHeader.into_response.status = 401)
      ∧ (jwt_middleware (some .nonUtf8) (JwtConfig.new "right") 1000
            = .error .InvalidTokenFormat
        ∧ jwt_middleware (some (.noBearerScheme "xyz")) (JwtConfig.new "right") 1000
            = .error .InvalidTokenFormat
        ∧ JwtError.InvalidTokenFormat.into_response.status = 400)
      ∧ (jwt_middleware
            (some (.bearer (.enc { sub := "a", exp := 5000, role := "r" } "wrong")))
            (JwtConfig.new "right") 1000
          = .error (.DecodeError .invalidSignature)
        ∧ (JwtError.DecodeError .invalidSignature).into_response.status = 401)
      ∧ (jwt_middleware
            (some (.bearer (.enc { sub := "a", exp := 10, role := "r" } "right")))
            (JwtConfig.new "right") 1000
          = .error (.DecodeError .expiredSignature)
        ∧ (JwtError.DecodeError .expiredSignature).into_response.status = 401)) :=
  ⟨⟨by decide, by decide⟩,
    c6_auth_error_taxonomy "right" "xyz" 1000 { sub := "a", exp := 5000, role := "r" }
      { sub := "a", exp := 10, role := "r" } "wrong" (by decide) (by decide)⟩

/-- Claim C7: a token signed with secret S1 never verifies under any
distinct secret S2, at any verification time — the signature check comes
before the expiry check, so expiry validity is irrelevant; in particular
a token issued under the previous secret fails verification the moment
the shared slot holds a different secret. -/
theorem c7_cross_secret_fails (sub role s1 s2 : String) (now t : Nat)
    (hne : s2 ≠ s1) :
    jwt_middleware (some (.bearer (generate_jwt sub s1 role now)))
        (JwtConfig.new s2) t
      = .error (.DecodeError .invalidSignature) := by
  simp [jwt_middleware, generate_jwt, decodeToken, JwtConfig.new, Ne.symm hne]

/-- Claim C7 witness: issue under "s1", verify under "s2" immediately,
well inside the expiry window. -/
theorem c7_cross_secret_fails_witness :
    "s2" ≠ "s1"
    ∧ jwt_middleware (some (.bearer (generate_jwt "u" "s1" "r" 100)))
        (JwtConfig.new "s2") 100
      = .error (.DecodeError .invalidSignature) :=
  ⟨by decide, c7_cross_secret_fails "u" "r" "s1" "s2" 100 100 (by decide)⟩

/-- Claim C8: when no rate-limit key can be extracted (no Authorization
header, a non-UTF-8 value, or a value without the "Bearer " scheme),
JwtKeyExtractor errors and the private router rejects the request with
the extractor error response; the store is untouched, so no such request
is ever bucketed under a shared default key and unrelated callers never
share a throttling budget. -/
theorem c8_no_default_key (cfg : JwtConfig) (store : List (TokenStr × Nat))
    (now : Nat) (handler : Resp) (auth : Option AuthVal)
    (hnokey : auth = none ∨ auth = some .nonUtf8
      ∨ ∃ s, auth = some (.noBearerScheme s)) :
    jwtKeyExtract auth = .error ()
    ∧ private_router cfg store auth now handler
        = (unable_to_extract_key_resp, store, false) := by
  rcases hnokey with h | h | ⟨s, h⟩ <;> subst h <;> exact ⟨rfl, rfl⟩

/-- Claim C8 witness: a request with no Authorization header. -/
theorem c8_no_default_key_witness :
    ((none : Option AuthVal) = none ∨ (none : Option AuthVal) = some .nonUtf8
      ∨ ∃ s, (none : Option AuthVal) = some (.noBearerScheme s))
    ∧ (jwtKeyExtract none = .error ()
      ∧ private_router (JwtConfig.new "s") [] none 0 okResp
          = (unable_to_extract_key_resp, [], false)) :=
  ⟨Or.inl rfl, c8_no_default_key (JwtConfig.new "s") [] 0 okResp none (Or.inl rfl)⟩

/-- Claim C9: a request whose body exceeds the 1024-byte cap is rejected
with the payload-too-large response by RequestBodyLimitLayer, which sits
outside the routers: nothing below it runs, the governor stores are
untouched, and no credential verification is performed — on protected
routes included. -/
theorem c9_body_cap (ctx : AppCtx) (req : Req) (now : Nat)
    (hbig : 1024 < req.bodyLen) :
    appPipeline ctx req now = (payload_too_large_resp, ctx, false) := by
  simp [appPipeline, hbig]

/-- Claim C9 witness: a 2000-byte body on a protected route with a
bearer credential present. -/
theorem c9_body_cap_witness :
    1024 < (2000 : Nat)
    ∧ appPipeline ⟨JwtConfig.new "s", [], []⟩
        ⟨Route.getScores, "p", some (.bearer (.raw "x")), 2000, 0⟩ 0
      = (payload_too_large_resp, ⟨JwtConfig.new "s", [], []⟩, false) :=
  ⟨by decide,
    c9_body_cap ⟨JwtConfig.new "s", [], []⟩
      ⟨Route.getScores, "p", some (.bearer (.raw "x")), 2000, 0⟩ 0 (by decide)⟩

end FlappyServer
